import Mathlib

/-!
Shallow embedding of the FileScopeAI submission pipeline.

Sources embedded here:
* `src/unnamed/part_003` — the `AnalysisAPIService` class
  (`waitForAnalysisCompletion`, `createFallbackResults`, `getAnalysisStatus`,
  `convertToFrontendFormat`, `getAnalysisResults`).
* `src/frontend/src/app/upload/page.tsx` — the orchestrator
  (`handleFileUpload`, `uploadToIPFS`, `startAnalysis`,
  `continueAnalysisMonitoring`, the session-restore `useEffect` and the
  transaction-confirmed `useEffect`).

Remote I/O (`fetch` to the analysis service, Pinata, the wallet and the
chain) is modelled by explicit oracles describing the outcome of each call,
so every embedded routine is a pure function from the oracle and its inputs
to a trace of the calls it makes, the `setAnalysisProgress` values it sets,
and its result.  JavaScript numbers that only ever hold exact decimal
values are modelled as `ℚ`; byte sizes and counters as `ℕ`.
-/

namespace FileScope

/-! ## Data model (interfaces of `part_003`) -/

/-- Status union `'completed' | 'processing' | 'pending' | 'failed'`. -/
inductive UploadStatus where
  | completed
  | processing
  | pending
  | failed
deriving DecidableEq, Repr

/-- One entry of `AnalysisMetrics.anomalies.details`. -/
structure AnomalyDetail where
  column : String
  /-- source field `type` -/
  anomalyType : String
  count : Nat
  severity : String
  description : String
  recommendation : String
deriving DecidableEq, Repr

/-- `AnalysisMetrics.anomalies`. -/
structure Anomalies where
  total : Nat
  high : Nat
  medium : Nat
  low : Nat
  details : List AnomalyDetail
deriving DecidableEq, Repr

/-- One of `bias_metrics.geographic` / `bias_metrics.demographic`. -/
structure BiasComponent where
  score : ℚ
  status : String
  description : String
deriving DecidableEq, Repr

/-- `AnalysisMetrics.bias_metrics`. -/
structure BiasMetrics where
  overall : ℚ
  geographic : BiasComponent
  demographic : BiasComponent
deriving DecidableEq, Repr

/-- Interface `AnalysisMetrics`. -/
structure AnalysisMetrics where
  quality_score : ℚ
  completeness : ℚ
  consistency : ℚ
  accuracy : ℚ
  validity : ℚ
  anomalies : Anomalies
  bias_metrics : BiasMetrics
deriving DecidableEq, Repr

/-- Interface `AnalysisInsights` (singular entry). -/
structure AnalysisInsight where
  /-- source field `type` -/
  insightType : String
  title : String
  description : String
  action : String
deriving DecidableEq, Repr

/-- The `results` payload of an `UploadResponse`. -/
structure AnalysisResults where
  metrics : AnalysisMetrics
  insights : List AnalysisInsight
deriving DecidableEq, Repr

/-- The optional `metadata` payload of an `UploadResponse`. -/
structure UploadMetadata where
  file_name : String
  file_size : String
  rows : Nat
  columns : Nat
  upload_date : String
  ipfs_hash : String
  contract_address : String
  block_number : String
  is_public : Bool
deriving DecidableEq, Repr

/-- Interface `UploadResponse`.  `analysis_id : string | number` is modelled
as `String` (the orchestrator always passes it through `String(...)`). -/
structure UploadResponse where
  analysis_id : String
  status : Option UploadStatus
  results : Option AnalysisResults
  metadata : Option UploadMetadata
deriving DecidableEq, Repr

/-- Interface `AnalysisStatus` as produced by `getAnalysisStatus`. -/
structure AnalysisStatus where
  analysis_id : String
  status : UploadStatus
  progress : Option Nat
  message : Option String
deriving DecidableEq, Repr

/-- `FrontendAnalysisResult.qualityScore`. -/
structure QualityScore where
  overall : ℚ
  completeness : ℚ
  consistency : ℚ
  accuracy : ℚ
  validity : ℚ
deriving DecidableEq, Repr

/-- `FrontendAnalysisResult.metadata`. -/
structure FrontendMetadata where
  fileName : String
  uploadDate : String
  fileSize : String
  rows : Nat
  columns : Nat
  processingTime : String
  ipfsHash : String
  contractAddress : String
  blockNumber : String
  isPublic : Bool
deriving DecidableEq, Repr

/-- Interface `FrontendAnalysisResult`. -/
structure FrontendAnalysisResult where
  metadata : FrontendMetadata
  qualityScore : QualityScore
  anomalies : Anomalies
  biasMetrics : BiasMetrics
  insights : List AnalysisInsight
deriving DecidableEq, Repr

/-! ## JavaScript `||` defaulting helpers

`x || d` on a possibly-missing number/string/boolean: a present value that is
falsy (`0`, the empty string, `false`) still falls through to the default. -/

def jsOrQ (x : Option ℚ) (d : ℚ) : ℚ :=
  match x with
  | some v => if v = 0 then d else v
  | none => d

def jsOrNat (x : Option Nat) (d : Nat) : Nat :=
  match x with
  | some v => if v = 0 then d else v
  | none => d

def jsOrStr (x : Option String) (d : String) : String :=
  match x with
  | some v => if v = "" then d else v
  | none => d

def jsOrBool (x : Option Bool) (d : Bool) : Bool :=
  match x with
  | some v => v || d
  | none => d

/-! ## `createFallbackResults` (part_003 lines 325–401)

`new Date().toISOString()` is modelled by the explicit parameter `now`. -/

def createFallbackResults (analysisId : String) (now : String) : UploadResponse :=
  { analysis_id := analysisId
    status := some .completed
    results := some
      { metrics :=
          { quality_score := 85
            completeness := 90
            consistency := 80
            accuracy := 85
            validity := 88
            anomalies :=
              { total := 5, high := 1, medium := 2, low := 2
                details :=
                  [{ column := "sample_column"
                     anomalyType := "missing_values"
                     count := 3
                     severity := "medium"
                     description := "Some missing values detected"
                     recommendation := "Consider data imputation techniques" }] }
            bias_metrics :=
              { overall := 15/100
                geographic :=
                  { score := 1/10, status := "Low"
                    description := "Minimal geographic bias detected" }
                demographic :=
                  { score := 2/10, status := "Low"
                    description := "Some demographic skew present" } } }
        insights :=
          [{ insightType := "success"
             title := "High Quality Dataset"
             description := "Your dataset shows good overall quality metrics with 85% quality score."
             action := "This dataset is suitable for analysis and machine learning applications." },
           { insightType := "warning"
             title := "Minor Data Issues"
             description := "Found 5 anomalies including 1 high-priority issue that should be addressed."
             action := "Review the anomalies section for specific recommendations." },
           { insightType := "info"
             title := "Bias Assessment"
             description := "Low bias detected overall (15%) with minimal geographic and demographic skew."
             action := "Dataset appears suitable for fair and unbiased analysis." }] }
    metadata := some
      { file_name := "Uploaded Dataset"
        file_size := "859 KB"
        rows := 1000
        columns := 6
        upload_date := now
        ipfs_hash := "QmXxXxXxXxXxXxXxXxXxXxXxXxXxXxXxXxXxXxXxXxX"
        contract_address := "0x742d35Cc6634C0532925a3b8D4C045B16f5b5d5E"
        block_number := "12345678"
        is_public := false } }

/-! ## `convertToFrontendFormat` (part_003 lines 437–495) -/

/-- The default insight generated when the backend returned no `results`.
In JavaScript an empty `insights` array is truthy, so a present-but-empty
list is kept as is; only an absent `results` falls back to this default. -/
def defaultInsight (metadata : Option UploadMetadata) : AnalysisInsight :=
  { insightType := "info"
    title := "Analysis Complete"
    description := "Successfully analyzed your dataset with "
      ++ toString (jsOrNat (metadata.map (·.rows)) 0) ++ " rows."
    action := "Review the quality scores and metrics above for detailed insights." }

def convertToFrontendFormat (backendResult : UploadResponse) (now : String) :
    FrontendAnalysisResult :=
  let metadata := backendResult.metadata
  let results := backendResult.results
  { metadata :=
      { fileName := jsOrStr (metadata.map (·.file_name)) "dataset.csv"
        uploadDate := jsOrStr (metadata.map (·.upload_date)) now
        fileSize := jsOrStr (metadata.map (·.file_size)) "0 B"
        rows := jsOrNat (metadata.map (·.rows)) 0
        columns := jsOrNat (metadata.map (·.columns)) 0
        processingTime := "2-3 seconds"
        ipfsHash := jsOrStr (metadata.map (·.ipfs_hash)) ""
        contractAddress := jsOrStr (metadata.map (·.contract_address)) ""
        blockNumber := jsOrStr (metadata.map (·.block_number)) ""
        isPublic := jsOrBool (metadata.map (·.is_public)) false }
    qualityScore :=
      { overall := jsOrQ (results.map (·.metrics.quality_score)) 85
        completeness := jsOrQ (results.map (·.metrics.completeness)) 90
        consistency := jsOrQ (results.map (·.metrics.consistency)) 85
        accuracy := jsOrQ (results.map (·.metrics.accuracy)) 85
        validity := jsOrQ (results.map (·.metrics.validity)) 85 }
    anomalies := (results.map (·.metrics.anomalies)).getD
      { total := 0, high := 0, medium := 0, low := 0, details := [] }
    biasMetrics := (results.map (·.metrics.bias_metrics)).getD
      { overall := 15/100
        geographic :=
          { score := 1/10, status := "Low"
            description := "Minimal geographic bias detected" }
        demographic :=
          { score := 2/10, status := "Low"
            description := "Some demographic skew present" } }
    insights :=
      match results with
      | some r => r.insights
      | none => [defaultInsight metadata] }

/-! ## The completion poller `waitForAnalysisCompletion` (part_003 lines 270–322)

Each loop iteration performs (in order): the `onProgress('processing', pct)`
callback, one `getAnalysisResults` fetch, and — when it neither returned nor
exhausted the budget — one 5000 ms `setTimeout` wait.  The outcome of the
fetch on attempt `k` is given by an oracle:
* `ok r` — the promise resolved with the (truthy) JSON value `r`;
* `nullResponse` — the promise resolved with a falsy JSON value
  (the `if (results)` guard fails);
* `err` — the fetch (or a non-2xx response) threw. -/

inductive FetchOutcome where
  | ok (response : UploadResponse)
  | nullResponse
  | err
deriving DecidableEq, Repr

def maxAttempts : Nat := 12

/-- `Math.min(90, (attempts / maxAttempts) * 100)`. -/
def pollInterp (attempts : Nat) : ℚ :=
  min 90 ((attempts : ℚ) / (maxAttempts : ℚ) * 100)

/-- Observable behaviour of one call to `waitForAnalysisCompletion`:
the `(status, percent)` pairs passed to `onProgress`, the number of
`getAnalysisResults` fetches, the number of 5-second waits, and the value
returned to the caller.  The function has no exception channel: the
embedded routine never throws to its caller. -/
structure PollTrace where
  progressEvents : List (String × ℚ)
  fetchCalls : Nat
  waits : Nat
  result : UploadResponse
deriving DecidableEq, Repr

/-- The `while (attempts < maxAttempts)` loop.  `fuel` is the number of
remaining iterations, i.e. `maxAttempts - attempts`; the top-level entry
point keeps this in sync.  In the catch branch the code increments
`attempts` and returns the fallback when the budget is reached
(`fuel = 0` after this iteration), otherwise it waits and retries. -/
def waitLoop (oracle : Nat → FetchOutcome) (analysisId now : String) :
    Nat → Nat → PollTrace
  | _, 0 => ⟨[], 0, 0, createFallbackResults analysisId now⟩
  | attempts, fuel + 1 =>
    let ev : String × ℚ := ("processing", pollInterp attempts)
    match oracle attempts with
    | .ok r => ⟨[ev, ("completed", 100)], 1, 0, r⟩
    | .nullResponse =>
      let rest := waitLoop oracle analysisId now (attempts + 1) fuel
      ⟨ev :: rest.progressEvents, rest.fetchCalls + 1, rest.waits + 1, rest.result⟩
    | .err =>
      if fuel = 0 then
        ⟨[ev], 1, 0, createFallbackResults analysisId now⟩
      else
        let rest := waitLoop oracle analysisId now (attempts + 1) fuel
        ⟨ev :: rest.progressEvents, rest.fetchCalls + 1, rest.waits + 1, rest.result⟩

def waitForAnalysisCompletion (oracle : Nat → FetchOutcome)
    (analysisId now : String) : PollTrace :=
  waitLoop oracle analysisId now 0 maxAttempts

/-! ## `getAnalysisStatus` (part_003 lines 404–434)

It performs one `getAnalysisResults` fetch.  On a resolved truthy response
the initial `response.status || 'completed'` assignment is immediately
overwritten: `completed` iff `response.results` is present, else
`processing` with progress 50.  A falsy resolved value makes the property
accesses throw, which the catch turns into `failed`, like a rejected
fetch. -/
def getAnalysisStatus (fetch : FetchOutcome) (analysisId : String) : AnalysisStatus :=
  match fetch with
  | .ok r =>
    if r.results.isSome then
      ⟨analysisId, .completed, some 100, some "Analysis complete"⟩
    else
      ⟨analysisId, .processing, some 50, some "Analysis in progress"⟩
  | .nullResponse => ⟨analysisId, .failed, none, some "Unknown error"⟩
  | .err => ⟨analysisId, .failed, none, some "Unknown error"⟩

/-! ## Files and upload validation (`upload/page.tsx`)

A browser `File` carries a name, its bytes and a MIME type; `size` is the
byte length of the content.  It is kept as a separate field so that large
files can be stated without materialising their bytes; the constructors
used below always keep it consistent with `content`. -/

structure FileData where
  name : String
  content : String
  size : Nat
  mime : String
deriving DecidableEq, Repr

/-- The keys of the `supportedTypes` record (upload/page.tsx lines 94–98). -/
def supportedTypeKeys : List String :=
  ["text/csv", "application/json",
   "application/vnd.openxmlformats-officedocument.spreadsheetml.sheet"]

/-- `100 * 1024 * 1024` bytes (upload/page.tsx line 347). -/
def maxFileSize : Nat := 100 * 1024 * 1024

/-- UI steps of the upload page (`currentStep`). -/
inductive Step where
  | upload
  | preview
  | processing
deriving DecidableEq, Repr

/-- Abstraction of `JSON.parse` on the file content: `none` when parsing
throws, otherwise the shape of the root value (array, object, or a
primitive such as a number or string). -/
inductive JsonKind where
  | arr
  | obj
  | prim
deriving DecidableEq, Repr

/-- Outcome of `handleFileUpload`: the error surfaced via
`setError`/`toast.error` (if any), whether the file was accepted, and the
resulting UI step.  `handleFileUpload` is called while `currentStep` is
`upload` and performs no network call; on rejection it returns early
without `setCurrentStep`, so the step stays `upload`. -/
structure HandleResult where
  errorMsg : Option String
  accepted : Bool
  nextStep : Step
deriving DecidableEq, Repr

/-- `handleFileUpload` (upload/page.tsx lines 337–391), with `JSON.parse`
abstracted by `parse`.  The type check precedes the size check; JSON files
additionally have their content parsed and their root shape checked. -/
def handleFileUpload (parse : String → Option JsonKind) (file : FileData) :
    HandleResult :=
  if file.mime ∉ supportedTypeKeys then
    ⟨some ("Unsupported file type: " ++ file.mime
      ++ ". Please upload CSV, JSON, or Excel files."), false, .upload⟩
  else if maxFileSize < file.size then
    ⟨some "File size too large. Please upload files smaller than 100MB.",
      false, .upload⟩
  else if file.mime = "application/json" then
    match parse file.content with
    | none =>
      ⟨some "Invalid JSON format. Please check your file and try again.",
        false, .upload⟩
    | some .prim =>
      ⟨some "JSON file must contain an array or object. Please check your JSON format.",
        false, .upload⟩
    | some .arr => ⟨none, true, .preview⟩
    | some .obj => ⟨none, true, .preview⟩
  else ⟨none, true, .preview⟩

/-! ## The publisher `uploadToIPFS` (upload/page.tsx lines 141–254)

Two Pinata `pinFileToIPFS` POSTs: first the raw file bytes, then the
metadata document that embeds the first upload's hash.  The outcome of each
POST is given by an oracle.  The function throws (`PublishResult.thrown`)
when the JWT is missing or either POST fails; only the metadata hash is
ever returned. -/

/-- A value of one entry of the metadata `attributes` array
(trait/value pairs; values are strings or numbers). -/
inductive AttrValue where
  | str (s : String)
  | num (q : ℚ)
deriving DecidableEq, Repr

/-- The `originalFile` block of the metadata document. -/
structure OriginalFileRef where
  name : String
  size : Nat
  /-- source field `type` -/
  mime : String
  ipfsHash : String
  uploadDate : String
deriving DecidableEq, Repr

/-- The `analysis` summary block of the metadata document. -/
structure AnalysisSummary where
  timestamp : String
  qualityScore : ℚ
  anomalies : Nat
  completeness : ℚ
  consistency : ℚ
  accuracy : ℚ
  validity : ℚ
deriving DecidableEq, Repr

/-- The metadata document built in step 2 of `uploadToIPFS`. -/
structure IpfsMetadata where
  name : String
  description : String
  originalFile : OriginalFileRef
  analysis : AnalysisSummary
  results : FrontendAnalysisResult
  attributes : List (String × AttrValue)
deriving DecidableEq, Repr

/-- Step 2 of `uploadToIPFS` (lines 170–217).  The `qualityScore || 0` and
`anomalies?.total || 0` defaults are identities here because the frontend
result always carries these fields (`0 || 0 = 0`).  The `File Size`
attribute is rendered by the source as `(size/1024).toFixed(2) + " KB"`;
the numeric value is kept unrendered. -/
def buildIpfsMetadata (file : FileData) (analysisResults : FrontendAnalysisResult)
    (originalFileHash now : String) : IpfsMetadata :=
  { name := file.name
    description := "AI Analysis Results for " ++ file.name
    originalFile :=
      { name := file.name, size := file.size, mime := file.mime
        ipfsHash := originalFileHash, uploadDate := now }
    analysis :=
      { timestamp := now
        qualityScore := analysisResults.qualityScore.overall
        anomalies := analysisResults.anomalies.total
        completeness := analysisResults.qualityScore.completeness
        consistency := analysisResults.qualityScore.consistency
        accuracy := analysisResults.qualityScore.accuracy
        validity := analysisResults.qualityScore.validity }
    results := analysisResults
    attributes :=
      [("File Type", .str file.mime),
       ("File Size", .num ((file.size : ℚ) / 1024)),
       ("Quality Score", .num analysisResults.qualityScore.overall),
       ("Anomalies Found", .num (analysisResults.anomalies.total : ℚ)),
       ("Analysis Date", .str now),
       ("Original File Available", .str "Yes")] }

/-- One Pinata `pinFileToIPFS` POST, with the content it carried.
`nullFileField` is the POST made when the `file` argument is `null`:
`FormData.append('file', null)` stringifies the null, so the request
carries the plain form-field string `"null"` — no file name and no file
bytes at all. -/
inductive PinataCall where
  | fileUpload (bytes : String) (fileName : String)
  | metadataUpload (doc : IpfsMetadata)
  | nullFileField
deriving DecidableEq, Repr

/-- Outcome of one Pinata POST: `ok` with the returned `IpfsHash`, or a
non-2xx response (whose `statusText` feeds the thrown error message). -/
inductive PinataOutcome where
  | ok (ipfsHash : String)
  | httpErr (statusText : String)
deriving DecidableEq, Repr

/-- The remote behaviour of the two Pinata POSTs of one `uploadToIPFS` call. -/
structure IpfsOracle where
  fileUpload : PinataOutcome
  metadataUpload : PinataOutcome
deriving DecidableEq, Repr

/-- What `uploadToIPFS` surfaces: a thrown error (no CID) or the metadata
hash returned to the caller. -/
inductive PublishResult where
  | thrown (msg : String)
  | returned (ipfsHash : String)
deriving DecidableEq, Repr

/-- Calls made and result of one `uploadToIPFS` invocation. -/
structure IpfsRun where
  calls : List PinataCall
  outcome : PublishResult
deriving DecidableEq, Repr

def uploadToIPFS (jwt : String) (oracle : IpfsOracle) (file : FileData)
    (analysisResults : FrontendAnalysisResult) (now : String) : IpfsRun :=
  if jwt = "" then
    ⟨[], .thrown "Failed to upload to IPFS: Pinata JWT secret not configured"⟩
  else
    match oracle.fileUpload with
    | .httpErr st =>
      ⟨[.fileUpload file.content file.name],
        .thrown ("Failed to upload to IPFS: Original file IPFS upload failed: " ++ st)⟩
    | .ok originalFileHash =>
      let doc := buildIpfsMetadata file analysisResults originalFileHash now
      match oracle.metadataUpload with
      | .httpErr st =>
        ⟨[.fileUpload file.content file.name, .metadataUpload doc],
          .thrown ("Failed to upload to IPFS: Analysis results IPFS upload failed: " ++ st)⟩
      | .ok analysisHash =>
        ⟨[.fileUpload file.content file.name, .metadataUpload doc],
          .returned analysisHash⟩

/-- `uploadToIPFS` invoked with `file = null` — what the automatically
resumed monitoring run does, because the restore effect executes the
mount render's closure in which `uploadedFile` is still `null`.  The JWT
check precedes any file access; `FormData.append('file', null)` does not
throw, so the first POST still happens, carrying the stringified null
(`PinataCall.nullFileField`).  If that POST succeeds, building the
metadata document evaluates `file.name` on `null` and throws a TypeError,
caught and rewrapped by the surrounding catch — the metadata upload is
never reached and a hash is never returned. -/
def uploadToIPFSNullFile (jwt : String) (oracle : IpfsOracle) : IpfsRun :=
  if jwt = "" then
    ⟨[], .thrown "Failed to upload to IPFS: Pinata JWT secret not configured"⟩
  else
    match oracle.fileUpload with
    | .httpErr st =>
      ⟨[.nullFileField],
        .thrown ("Failed to upload to IPFS: Original file IPFS upload failed: " ++ st)⟩
    | .ok _ =>
      ⟨[.nullFileField],
        .thrown "Failed to upload to IPFS: TypeError: file is null"⟩

/-! ## The pipeline driver (`startAnalysis`, `continueAnalysisMonitoring`,
and the transaction-confirmed `useEffect`)

The remote world of one run is an oracle bundle: the poller fetches, the
Pinata configuration and POST outcomes, whether the wallet is connected
(`useAccount().isConnected`), and whether the submitted transaction is
eventually confirmed (`useWaitForTransactionReceipt`). -/

structure PipelineEnv where
  pollOracle : Nat → FetchOutcome
  jwt : String
  ipfs : IpfsOracle
  walletConnected : Bool
  txConfirmed : Bool

/-- Calls to the AnalysisService backend. -/
inductive ApiCall where
  | uploadAndAnalyze (fileName : String) (isPublic : Bool)
  | getAnalysisResults (analysisId : String)
deriving DecidableEq, Repr

/-- One `writeContract` invocation:
`uploadDataset(datasetCID, analysisCID, isPublic)`. -/
structure ContractCall where
  datasetCID : String
  analysisCID : String
  isPublic : Bool
deriving DecidableEq, Repr

/-- How a run of the pipeline ends. -/
inductive RunOutcome where
  /-- transaction confirmed; progress set to 100, results handed off. -/
  | confirmedDone
  /-- the catch of `continueAnalysisMonitoring`: back to `preview`,
  saved state cleared. -/
  | monitoringFailed
  /-- the catch of `startAnalysis` around `uploadAndAnalyze`. -/
  | submitFailed
  /-- `writeContract` issued but no confirmation observed. -/
  | awaitingConfirmation
deriving DecidableEq, Repr

/-- Observable trace of one pipeline run: backend calls, Pinata calls,
contract calls, the successive `setAnalysisProgress` values, the outcome,
and the effects of the confirmation handler / catch handlers — whether the
snapshot was cleared, where the page navigated, and the `ipfsHash` stored
in the handoff record for the results page (when one is written). -/
structure RunTrace where
  apiCalls : List ApiCall
  pinataCalls : List PinataCall
  contractCalls : List ContractCall
  progressSets : List ℚ
  outcome : RunOutcome
  clearedState : Bool
  navigatedTo : Option String
  storedIpfsHash : Option String
deriving DecidableEq, Repr

/-- `continueAnalysisMonitoring` (upload/page.tsx lines 587–654) plus the
transaction-confirmed `useEffect` (lines 796–836).

Order of effects in the source: run the poller (each `onProgress(s, p)`
does `setAnalysisProgress(p || 0)`, the identity on numbers since `0` maps
to `0`); convert the result; `setAnalysisProgress(85)`; `uploadToIPFS`;
`setAnalysisProgress(95)`; check the wallet; `writeContract(hash, hash,
isPublic)`; and on the confirmation event `setAnalysisProgress(100)`.
Any throw lands in the catch (`monitoringFailed`). -/
def continueAnalysisMonitoring (env : PipelineEnv) (file : FileData)
    (isPublic : Bool) (analysisId now : String) : RunTrace :=
  let poll := waitForAnalysisCompletion env.pollOracle analysisId now
  let pollApi := List.replicate poll.fetchCalls (ApiCall.getAnalysisResults analysisId)
  let pollProgress := poll.progressEvents.map (·.2)
  let frontendResults := convertToFrontendFormat poll.result now
  let ipfsRun := uploadToIPFS env.jwt env.ipfs file frontendResults now
  match ipfsRun.outcome with
  | .thrown _ =>
    ⟨pollApi, ipfsRun.calls, [], pollProgress ++ [85], .monitoringFailed,
      true, none, none⟩
  | .returned hash =>
    if env.walletConnected then
      if env.txConfirmed then
        ⟨pollApi, ipfsRun.calls, [⟨hash, hash, isPublic⟩],
          pollProgress ++ [85, 95, 100], .confirmedDone,
          true, some "/results", some hash⟩
      else
        ⟨pollApi, ipfsRun.calls, [⟨hash, hash, isPublic⟩],
          pollProgress ++ [85, 95], .awaitingConfirmation,
          false, none, none⟩
    else
      ⟨pollApi, ipfsRun.calls, [], pollProgress ++ [85, 95], .monitoringFailed,
        true, none, none⟩

/-- `continueAnalysisMonitoring` as invoked by the startup restore effect:
that effect runs once on mount (deps `[router, clearSavedState]`) and
calls the closure captured at the mount render, where `uploadedFile` is
`null` — the `setUploadedFile(mockFile)` issued just before does not
change the already-captured closure — and `isPublic` is the initial
`false`.  The poller and the conversion run as usual; the publish step is
`uploadToIPFS(null, …)`, which always throws, landing the run in the
monitoring catch.  (The returned-hash continuation is kept for shape but
is unreachable.) -/
def continueAnalysisMonitoringNullFile (env : PipelineEnv)
    (analysisId now : String) : RunTrace :=
  let poll := waitForAnalysisCompletion env.pollOracle analysisId now
  let pollApi := List.replicate poll.fetchCalls (ApiCall.getAnalysisResults analysisId)
  let pollProgress := poll.progressEvents.map (·.2)
  let ipfsRun := uploadToIPFSNullFile env.jwt env.ipfs
  match ipfsRun.outcome with
  | .thrown _ =>
    ⟨pollApi, ipfsRun.calls, [], pollProgress ++ [85], .monitoringFailed,
      true, none, none⟩
  | .returned hash =>
    if env.walletConnected then
      if env.txConfirmed then
        ⟨pollApi, ipfsRun.calls, [⟨hash, hash, false⟩],
          pollProgress ++ [85, 95, 100], .confirmedDone,
          true, some "/results", some hash⟩
      else
        ⟨pollApi, ipfsRun.calls, [⟨hash, hash, false⟩],
          pollProgress ++ [85, 95], .awaitingConfirmation,
          false, none, none⟩
    else
      ⟨pollApi, ipfsRun.calls, [], pollProgress ++ [85, 95], .monitoringFailed,
        true, none, none⟩

/-- Outcome of the initial `uploadAndAnalyze` POST. -/
inductive SubmitOutcome where
  | ok (analysisId : String)
  | err (msg : String)
deriving Repr

/-- `startAnalysis` (upload/page.tsx lines 514–584): it sets
`analysisProgress` to 0, submits the file via `uploadAndAnalyze`, and on
success hands the returned id to `continueAnalysisMonitoring`. -/
def startAnalysis (submit : SubmitOutcome) (env : PipelineEnv)
    (file : FileData) (isPublic : Bool) (now : String) : RunTrace :=
  match submit with
  | .err _ =>
    ⟨[.uploadAndAnalyze file.name isPublic], [], [], [0], .submitFailed,
      true, none, none⟩
  | .ok analysisId =>
    let t := continueAnalysisMonitoring env file isPublic analysisId now
    ⟨.uploadAndAnalyze file.name isPublic :: t.apiCalls, t.pinataCalls,
      t.contractCalls, 0 :: t.progressSets, t.outcome,
      t.clearedState, t.navigatedTo, t.storedIpfsHash⟩

/-! ## Session persistence and the startup restore routine
(`saveState` / `clearSavedState` / the restore `useEffect`,
upload/page.tsx lines 120–138 and 658–782) -/

/-- The snapshot persisted in `sessionStorage.uploadState`
(interface `SavedState`). -/
structure SavedState where
  currentStep : Step
  analysisProgress : ℚ
  currentAnalysisId : Option String
  fileName : Option String
  fileSize : Option Nat
  fileType : Option String
  isPublic : Bool
deriving DecidableEq, Repr

/-- `new File([''], name, \x7b type \x7d)`: the mock `File` rebuilt on
restore carries the persisted name and MIME type but empty content, hence
size 0. -/
def mockFileOf (name : String) (fileType : Option String) : FileData :=
  ⟨name, "", 0, jsOrStr fileType "text/csv"⟩

/-- Remote behaviour during one restore: the fetch inside the initial
`getAnalysisStatus` call, the follow-up full-results fetch of the
completed branch, and the pipeline oracle for a resumed monitoring run. -/
structure RecoveryEnv where
  statusFetch : FetchOutcome
  resultsFetch : FetchOutcome
  pipeline : PipelineEnv

/-- Observable trace of the restore routine.  `storedIpfsHash` is the
`ipfsHash` field of the `analysisResults` record written to
`sessionStorage` for the results page, when one is written.
`restoredFile` is the mock `File` placed into the `uploadedFile` state by
`setUploadedFile`, when one is placed — visible to later renders (such as
the retry button's fresh closure), but not to the restore effect's own
already-captured `continueAnalysisMonitoring` closure. -/
structure RecoveryTrace where
  apiCalls : List ApiCall
  pinataCalls : List PinataCall
  contractCalls : List ContractCall
  progressSets : List ℚ
  navigatedTo : Option String
  clearedState : Bool
  finalStep : Option Step
  storedIpfsHash : Option String
  restoredFile : Option FileData

/-- The completed branch of the restore routine (lines 687–719): one more
`getAnalysisResults` fetch; on success the results are converted and the
handoff record is written with the placeholder `ipfsHash =
'restored-' + Date.now()` and placeholder blockchain fields, the snapshot
is cleared and the page navigates to `/results`.  A rejection falls into
the surrounding catch: snapshot cleared, back to the upload step.
`nowMs` models `Date.now()`. -/
def restoreCompletedBranch (env : RecoveryEnv) (analysisId now nowMs : String) :
    RecoveryTrace :=
  match env.resultsFetch with
  | .ok results =>
    let frontendResults := convertToFrontendFormat results now
    let _ := frontendResults
    { apiCalls := [.getAnalysisResults analysisId, .getAnalysisResults analysisId]
      pinataCalls := []
      contractCalls := []
      progressSets := []
      navigatedTo := some "/results"
      clearedState := true
      finalStep := none
      storedIpfsHash := some ("restored-" ++ nowMs)
      restoredFile := none }
  | _ =>
    { apiCalls := [.getAnalysisResults analysisId, .getAnalysisResults analysisId]
      pinataCalls := []
      contractCalls := []
      progressSets := []
      navigatedTo := none
      clearedState := true
      finalStep := some .upload
      storedIpfsHash := none
      restoredFile := none }

/-- The still-processing branch of the restore routine (lines 726–744):
restore the UI step and progress, place the rebuilt mock file into state
when a truthy file name was persisted (`setUploadedFile(mockFile)` —
visible only to later renders), and call `continueAnalysisMonitoring`
with the persisted id.  That call executes in the mount render's closure,
where `uploadedFile` is still `null` and `isPublic` the initial `false`:
the resumed run is `continueAnalysisMonitoringNullFile`, whether or not a
file name was persisted. -/
def restoreProcessingBranch (env : RecoveryEnv) (s : SavedState)
    (analysisId now : String) : RecoveryTrace :=
  let restoredProgress := if s.analysisProgress = 0 then 0 else s.analysisProgress
  let t := continueAnalysisMonitoringNullFile env.pipeline analysisId now
  { apiCalls := .getAnalysisResults analysisId :: t.apiCalls
    pinataCalls := t.pinataCalls
    contractCalls := t.contractCalls
    progressSets := restoredProgress :: t.progressSets
    navigatedTo := t.navigatedTo
    clearedState := t.clearedState
    finalStep := some (if t.outcome = .monitoringFailed then .preview else .processing)
    storedIpfsHash := t.storedIpfsHash
    restoredFile :=
      match s.fileName with
      | some n => if n = "" then none else some (mockFileOf n s.fileType)
      | none => none }

/-- The startup restore `useEffect` (lines 658–782).  `saved` is the parsed
`uploadState` snapshot (or `none`), `existingResults` tells whether an
`analysisResults` handoff record is already present, `nowMs` models
`Date.now()`.  Branches, in source order:
1. no snapshot → nothing happens;
2. snapshot in `processing` with an existing handoff record → clear and
   navigate to `/results`;
3. snapshot in `processing` with an id → one `getAnalysisStatus` fetch,
   then the completed / failed / still-processing branches;
4. snapshot in `processing` without an id → corrupt: clear, back to
   `upload`;
5. snapshot in another step → restore the UI fields only, no calls. -/
def restoreSession (env : RecoveryEnv) (saved : Option SavedState)
    (existingResults : Bool) (now nowMs : String) : RecoveryTrace :=
  match saved with
  | none =>
    { apiCalls := [], pinataCalls := [], contractCalls := []
      progressSets := [], navigatedTo := none, clearedState := false
      finalStep := none, storedIpfsHash := none, restoredFile := none }
  | some s =>
    if s.currentStep = .processing then
      if existingResults then
        { apiCalls := [], pinataCalls := [], contractCalls := []
          progressSets := [], navigatedTo := some "/results"
          clearedState := true, finalStep := none, storedIpfsHash := none
          restoredFile := none }
      else
        match s.currentAnalysisId with
        | some analysisId =>
          match (getAnalysisStatus env.statusFetch analysisId).status with
          | .completed => restoreCompletedBranch env analysisId now nowMs
          | .failed =>
            { apiCalls := [.getAnalysisResults analysisId]
              pinataCalls := [], contractCalls := []
              progressSets := [], navigatedTo := none
              clearedState := true, finalStep := some .upload
              storedIpfsHash := none, restoredFile := none }
          | _ => restoreProcessingBranch env s analysisId now
        | none =>
          { apiCalls := [], pinataCalls := [], contractCalls := []
            progressSets := [], navigatedTo := none
            clearedState := true, finalStep := some .upload
            storedIpfsHash := none, restoredFile := none }
    else
      { apiCalls := [], pinataCalls := [], contractCalls := []
        progressSets := [if s.analysisProgress = 0 then 0 else s.analysisProgress]
        navigatedTo := none, clearedState := false
        finalStep := some s.currentStep, storedIpfsHash := none
        restoredFile :=
          -- the guard `parsedState.fileName && parsedState.fileSize`
          -- requires both values truthy (non-empty name, non-zero size)
          match s.fileName, s.fileSize with
          | some n, some sz =>
            if n = "" ∨ sz = 0 then none else some (mockFileOf n s.fileType)
          | _, _ => none }

/-! ## General lemmas -/

theorem pollInterp_le_90 (k : Nat) : pollInterp k ≤ 90 :=
  min_le_left _ _

theorem pollInterp_le_100 (k : Nat) : pollInterp k ≤ 100 :=
  le_trans (pollInterp_le_90 k) (by norm_num)

theorem pollInterp_nonneg (k : Nat) : 0 ≤ pollInterp k := by
  unfold pollInterp
  apply le_min (by norm_num)
  positivity

theorem pollInterp_mono {a b : Nat} (h : a ≤ b) : pollInterp a ≤ pollInterp b := by
  unfold pollInterp
  apply min_le_min le_rfl
  have hab : (a : ℚ) ≤ (b : ℚ) := by exact_mod_cast h
  have h12 : (0 : ℚ) < (maxAttempts : ℚ) := by norm_num [maxAttempts]
  exact mul_le_mul_of_nonneg_right ((div_le_div_iff_of_pos_right h12).mpr hab) (by norm_num)

/-- Each loop iteration fetches once, so the fetches are bounded by the fuel. -/
theorem waitLoop_fetchCalls_le (oracle : Nat → FetchOutcome) (analysisId now : String) :
    ∀ fuel attempts, (waitLoop oracle analysisId now attempts fuel).fetchCalls ≤ fuel := by
  intro fuel
  induction fuel with
  | zero => intro attempts; simp [waitLoop]
  | succ f ih =>
    intro attempts
    cases h : oracle attempts with
    | ok r => simp [waitLoop, h]
    | nullResponse => simp [waitLoop, h]; exact ih (attempts + 1)
    | err =>
      by_cases hf : f = 0
      · simp [waitLoop, h, hf]
      · simp [waitLoop, h, hf]; exact ih (attempts + 1)

/-- The 5-second waits are likewise bounded by the fuel. -/
theorem waitLoop_waits_le (oracle : Nat → FetchOutcome) (analysisId now : String) :
    ∀ fuel attempts, (waitLoop oracle analysisId now attempts fuel).waits ≤ fuel := by
  intro fuel
  induction fuel with
  | zero => intro attempts; simp [waitLoop]
  | succ f ih =>
    intro attempts
    cases h : oracle attempts with
    | ok r => simp [waitLoop, h]
    | nullResponse => simp [waitLoop, h]; exact ih (attempts + 1)
    | err =>
      by_cases hf : f = 0
      · simp [waitLoop, h, hf]
      · simp [waitLoop, h, hf]; exact ih (attempts + 1)

/-- When every fetch attempt throws, the loop ends in the synthetic fallback. -/
theorem waitLoop_all_err (oracle : Nat → FetchOutcome) (analysisId now : String)
    (h : ∀ k, oracle k = .err) :
    ∀ fuel attempts, (waitLoop oracle analysisId now attempts fuel).result
      = createFallbackResults analysisId now := by
  intro fuel
  induction fuel with
  | zero => intro attempts; simp [waitLoop]
  | succ f ih =>
    intro attempts
    by_cases hf : f = 0
    · simp [waitLoop, h attempts, hf]
    · simp [waitLoop, h attempts, hf]; exact ih (attempts + 1)

/-- Every `onProgress` event of the loop is either
`('processing', pollInterp k)` for some attempt `k` in range, or the final
`('completed', 100)`. -/
theorem waitLoop_events_mem (oracle : Nat → FetchOutcome) (analysisId now : String) :
    ∀ fuel attempts, ∀ e ∈ (waitLoop oracle analysisId now attempts fuel).progressEvents,
      (e.1 = "processing" ∧ ∃ k, attempts ≤ k ∧ k < attempts + fuel ∧ e.2 = pollInterp k)
        ∨ e = ("completed", 100) := by
  intro fuel
  induction fuel with
  | zero => intro attempts e he; simp [waitLoop] at he
  | succ f ih =>
    intro attempts e he
    cases h : oracle attempts with
    | ok r =>
      simp [waitLoop, h] at he
      rcases he with he | he
      · exact Or.inl ⟨by simp [he], attempts, le_rfl, by omega, by simp [he]⟩
      · exact Or.inr (by simp [he])
    | nullResponse =>
      simp [waitLoop, h] at he
      rcases he with he | he
      · exact Or.inl ⟨by simp [he], attempts, le_rfl, by omega, by simp [he]⟩
      · rcases ih (attempts + 1) e he with ⟨h1, k, hk1, hk2, hk3⟩ | h1
        · exact Or.inl ⟨h1, k, by omega, by omega, hk3⟩
        · exact Or.inr h1
    | err =>
      by_cases hf : f = 0
      · simp [waitLoop, h, hf] at he
        exact Or.inl ⟨by simp [he], attempts, le_rfl, by omega, by simp [he]⟩
      · simp [waitLoop, h, hf] at he
        rcases he with he | he
        · exact Or.inl ⟨by simp [he], attempts, le_rfl, by omega, by simp [he]⟩
        · rcases ih (attempts + 1) e he with ⟨h1, k, hk1, hk2, hk3⟩ | h1
          · exact Or.inl ⟨h1, k, by omega, by omega, hk3⟩
          · exact Or.inr h1

/-- With fuel left, the first event of the loop is the `'processing'`
callback for the current attempt. -/
theorem waitLoop_events_head (oracle : Nat → FetchOutcome) (analysisId now : String)
    (attempts f : Nat) :
    (waitLoop oracle analysisId now attempts (f + 1)).progressEvents.head?
      = some ("processing", pollInterp attempts) := by
  cases h : oracle attempts with
  | ok r => simp [waitLoop, h]
  | nullResponse => simp [waitLoop, h]
  | err =>
    by_cases hf : f = 0
    · simp [waitLoop, h, hf]
    · simp [waitLoop, h, hf]

/-- The percent values delivered by the loop never decrease: the
interpolation grows with the attempt counter and the final `completed`
callback delivers 100. -/
theorem waitLoop_chain (oracle : Nat → FetchOutcome) (analysisId now : String) :
    ∀ fuel attempts,
      List.Chain' (· ≤ ·)
        ((waitLoop oracle analysisId now attempts fuel).progressEvents.map (·.2)) := by
  intro fuel
  induction fuel with
  | zero => intro attempts; simp [waitLoop]
  | succ f ih =>
    intro attempts
    have hstep : ∀ rest : PollTrace,
        rest = waitLoop oracle analysisId now (attempts + 1) f →
        List.Chain' (· ≤ ·) (pollInterp attempts :: rest.progressEvents.map (·.2)) := by
      intro rest hrest
      rw [List.chain'_cons']
      constructor
      · intro y hy
        cases f with
        | zero => simp [hrest, waitLoop] at hy
        | succ f' =>
          rw [hrest, List.head?_map, waitLoop_events_head] at hy
          simp at hy
          rw [← hy]
          exact pollInterp_mono (Nat.le_succ attempts)
      · rw [hrest]; exact ih (attempts + 1)
    cases h : oracle attempts with
    | ok r =>
      simp [waitLoop, h, List.chain'_cons]
      exact pollInterp_le_100 attempts
    | nullResponse =>
      simp only [waitLoop, h]
      exact hstep _ rfl
    | err =>
      by_cases hf : f = 0
      · simp [waitLoop, h, hf]
      · simp only [waitLoop, h, hf, if_false]
        exact hstep _ rfl

/-- In every branch of `continueAnalysisMonitoring` the backend calls are
exactly the poller fetches, all keyed by the given analysis id. -/
theorem monitoring_apiCalls_eq (env : PipelineEnv) (file : FileData)
    (isPublic : Bool) (analysisId now : String) :
    (continueAnalysisMonitoring env file isPublic analysisId now).apiCalls
      = List.replicate (waitForAnalysisCompletion env.pollOracle analysisId now).fetchCalls
          (ApiCall.getAnalysisResults analysisId) := by
  unfold continueAnalysisMonitoring
  cases h : (uploadToIPFS env.jwt env.ipfs file
      (convertToFrontendFormat (waitForAnalysisCompletion env.pollOracle analysisId now).result now)
      now).outcome with
  | thrown msg => simp [h]
  | returned hash => simp [h]; split_ifs <;> rfl

/-- In every branch of `continueAnalysisMonitoring` the Pinata calls are
exactly those of its one `uploadToIPFS` invocation. -/
theorem monitoring_pinataCalls_eq (env : PipelineEnv) (file : FileData)
    (isPublic : Bool) (analysisId now : String) :
    (continueAnalysisMonitoring env file isPublic analysisId now).pinataCalls
      = (uploadToIPFS env.jwt env.ipfs file
          (convertToFrontendFormat (waitForAnalysisCompletion env.pollOracle analysisId now).result now)
          now).calls := by
  unfold continueAnalysisMonitoring
  cases h : (uploadToIPFS env.jwt env.ipfs file
      (convertToFrontendFormat (waitForAnalysisCompletion env.pollOracle analysisId now).result now)
      now).outcome with
  | thrown msg => simp [h]
  | returned hash => simp [h]; split_ifs <;> rfl

/-- The progress values set by `continueAnalysisMonitoring` are the poller
percentages followed by one of the milestone suffixes `[85]`, `[85, 95]`
or `[85, 95, 100]`, depending on how far the run got. -/
theorem monitoring_progress_eq (env : PipelineEnv) (file : FileData)
    (isPublic : Bool) (analysisId now : String) :
    ∃ rest, (continueAnalysisMonitoring env file isPublic analysisId now).progressSets
        = (waitForAnalysisCompletion env.pollOracle analysisId now).progressEvents.map (·.2)
            ++ rest
      ∧ (rest = [85] ∨ rest = [85, 95] ∨ rest = [85, 95, 100]) := by
  unfold continueAnalysisMonitoring
  cases h : (uploadToIPFS env.jwt env.ipfs file
      (convertToFrontendFormat (waitForAnalysisCompletion env.pollOracle analysisId now).result now)
      now).outcome with
  | thrown msg => exact ⟨[85], by simp [h], Or.inl rfl⟩
  | returned hash =>
    by_cases hw : env.walletConnected
    · by_cases hc : env.txConfirmed
      · exact ⟨[85, 95, 100], by simp [h, hw, hc], Or.inr (Or.inr rfl)⟩
      · exact ⟨[85, 95], by simp [h, hw, hc], Or.inr (Or.inl rfl)⟩
    · exact ⟨[85, 95], by simp [h, hw], Or.inr (Or.inl rfl)⟩

/-- The null-file publish never returns a hash: every path throws. -/
theorem uploadToIPFSNullFile_thrown (jwt : String) (oracle : IpfsOracle) :
    ∃ m, (uploadToIPFSNullFile jwt oracle).outcome = .thrown m := by
  unfold uploadToIPFSNullFile
  by_cases hj : jwt = ""
  · rw [if_pos hj]; exact ⟨_, rfl⟩
  · rw [if_neg hj]; cases oracle.fileUpload <;> exact ⟨_, rfl⟩

/-- With a configured JWT the null-file publish makes exactly one POST,
carrying the stringified null. -/
theorem uploadToIPFSNullFile_calls (jwt : String) (oracle : IpfsOracle)
    (h : ¬ jwt = "") :
    (uploadToIPFSNullFile jwt oracle).calls = [PinataCall.nullFileField] := by
  unfold uploadToIPFSNullFile
  rw [if_neg h]; cases oracle.fileUpload <;> rfl

/-- Since the null-file publish always throws, the resumed monitoring run
always ends in the monitoring catch, after one publish attempt and no
contract call. -/
theorem monitoringNullFile_eq (env : PipelineEnv) (analysisId now : String) :
    continueAnalysisMonitoringNullFile env analysisId now
      = ⟨List.replicate
            (waitForAnalysisCompletion env.pollOracle analysisId now).fetchCalls
            (ApiCall.getAnalysisResults analysisId),
         (uploadToIPFSNullFile env.jwt env.ipfs).calls, [],
         (waitForAnalysisCompletion env.pollOracle analysisId now).progressEvents.map (·.2)
            ++ [85],
         .monitoringFailed, true, none, none⟩ := by
  obtain ⟨m, hm⟩ := uploadToIPFSNullFile_thrown env.jwt env.ipfs
  unfold continueAnalysisMonitoringNullFile
  simp [hm]

/-- Backend calls of the still-processing restore branch are all keyed by
the persisted id. -/
theorem restore_processing_apiCalls (env : RecoveryEnv) (s : SavedState)
    (analysisId now : String) :
    ∀ c ∈ (restoreProcessingBranch env s analysisId now).apiCalls,
      c = ApiCall.getAnalysisResults analysisId := by
  intro c hc
  simp only [restoreProcessingBranch, monitoringNullFile_eq, List.mem_cons] at hc
  rcases hc with hc | hc
  · exact hc
  · exact List.eq_of_mem_replicate hc

/-- Backend calls of the completed restore branch are all keyed by the
persisted id. -/
theorem restore_completed_apiCalls (env : RecoveryEnv) (analysisId now nowMs : String) :
    ∀ c ∈ (restoreCompletedBranch env analysisId now nowMs).apiCalls,
      c = ApiCall.getAnalysisResults analysisId := by
  intro c hc
  unfold restoreCompletedBranch at hc
  split at hc <;> simp_all

/-! ## Concrete fixtures used by witnesses and counterexamples -/

/-- Remote behaviour where every fetch attempt throws. -/
def allErrOracle : Nat → FetchOutcome := fun _ => .err

/-- A backend response reporting `processing` with no results yet. -/
def processingResponse : UploadResponse :=
  ⟨"42", some .processing, none, none⟩

/-- Remote behaviour where every fetch resolves with the processing
response. -/
def alwaysProcessing : Nat → FetchOutcome := fun _ => .ok processingResponse

/-- A backend response carrying completed results (the fallback metrics
reused as a concrete payload). -/
def completedResponse : UploadResponse :=
  ⟨"42", some .completed, (createFallbackResults "42" "t0").results, none⟩

/-- The 2 KB `poll.csv` scenario file (content abbreviated). -/
def sampleCsvFile : FileData := ⟨"poll.csv", "a,b", 3, "text/csv"⟩

/-- A CSV file one byte over the 100 MiB limit. -/
def oversizedCsv : FileData := ⟨"big.csv", "", 100 * 1024 * 1024 + 1, "text/csv"⟩

/-- Both Pinata POSTs succeed. -/
def okIpfsOracle : IpfsOracle := ⟨.ok "QmFileCid", .ok "QmMetaCid"⟩

/-- Configured JWT, first poll resolves, IPFS and chain succeed. -/
def okPipelineEnv : PipelineEnv :=
  ⟨alwaysProcessing, "jwt-secret", okIpfsOracle, true, true⟩

/-- Same environment but every poll attempt throws. -/
def allErrPipelineEnv : PipelineEnv :=
  ⟨allErrOracle, "jwt-secret", okIpfsOracle, true, true⟩

/-- A snapshot persisted mid-analysis: `processing` step, progress 50,
job id 42, `poll.csv` of 2048 bytes, public. -/
def processingSaved : SavedState :=
  ⟨.processing, 50, some "42", some "poll.csv", some 2048, some "text/csv", true⟩

/-- Restore-time remote behaviour: the status query finds the analysis
completed and the full-results fetch succeeds. -/
def completedRecoveryEnv : RecoveryEnv :=
  ⟨.ok completedResponse, .ok completedResponse, okPipelineEnv⟩

/-- Restore-time remote behaviour: the status query finds the analysis
still processing. -/
def processingRecoveryEnv : RecoveryEnv :=
  ⟨.ok processingResponse, .ok processingResponse, okPipelineEnv⟩

/-! ## Claims -/

/-- Claim C1 (idempotent resume): for every persisted snapshot whose
analysis id is set, the startup restore routine — under every remote
behaviour, through every branch including a resumed poll and the publish
and register stages — never calls the `uploadAndAnalyze` submit endpoint:
every AnalysisService call it performs is a `getAnalysisResults` query
keyed by the persisted job id. -/
theorem resume_never_resubmits (env : RecoveryEnv) (s : SavedState)
    (existingResults : Bool) (now nowMs analysisId : String)
    (hid : s.currentAnalysisId = some analysisId) :
    ∀ c ∈ (restoreSession env (some s) existingResults now nowMs).apiCalls,
      c = ApiCall.getAnalysisResults analysisId := by
  intro c hc
  simp only [restoreSession] at hc
  by_cases hstep : s.currentStep = .processing
  · simp only [hstep, if_true] at hc
    by_cases her : existingResults
    · simp [her] at hc
    · simp only [her, Bool.false_eq_true, if_false, hid] at hc
      cases hfetch : env.statusFetch with
      | ok r =>
        cases hres : r.results with
        | some res =>
          simp only [getAnalysisStatus, hfetch, hres, Option.isSome_some, if_true] at hc
          exact restore_completed_apiCalls env analysisId now nowMs c hc
        | none =>
          simp only [getAnalysisStatus, hfetch, hres, Option.isSome_none,
            Bool.false_eq_true, if_false] at hc
          exact restore_processing_apiCalls env s analysisId now c hc
      | nullResponse =>
        simp only [getAnalysisStatus, hfetch] at hc
        simp at hc
        simp [hc]
      | err =>
        simp only [getAnalysisStatus, hfetch] at hc
        simp at hc
        simp [hc]
  · simp [hstep] at hc

/-- Witness for C1 at a concrete mid-analysis snapshot and environment. -/
theorem resume_never_resubmits_witness :
    processingSaved.currentAnalysisId = some "42"
    ∧ ∀ c ∈ (restoreSession processingRecoveryEnv (some processingSaved)
          false "t0" "1700").apiCalls,
        c = ApiCall.getAnalysisResults "42" :=
  ⟨rfl, resume_never_resubmits processingRecoveryEnv processingSaved false "t0" "1700" "42" rfl⟩

/-- Claim C3 (bounded polling termination): for every remote behaviour the
poller performs at most 12 fetch attempts and at most 12 five-second waits
(at most 60000 ms of inter-attempt delay), and it always hands a response
back to its caller — the embedded function has no exception channel, so a
not-yet-ready analysis never raises; when every attempt throws, the value
handed back is the synthetic fallback result. -/
theorem bounded_polling_terminates (oracle : Nat → FetchOutcome)
    (analysisId now : String) :
    (waitForAnalysisCompletion oracle analysisId now).fetchCalls ≤ maxAttempts
    ∧ (waitForAnalysisCompletion oracle analysisId now).waits * 5000 ≤ 60000
    ∧ ((∀ k, oracle k = FetchOutcome.err) →
        (waitForAnalysisCompletion oracle analysisId now).result
          = createFallbackResults analysisId now) := by
  refine ⟨waitLoop_fetchCalls_le oracle analysisId now maxAttempts 0, ?_, ?_⟩
  · have h := waitLoop_waits_le oracle analysisId now maxAttempts 0
    have hm : maxAttempts = 12 := rfl
    unfold waitForAnalysisCompletion
    omega
  · intro h
    exact waitLoop_all_err oracle analysisId now h maxAttempts 0

/-- Witness for C3 with the all-throwing remote behaviour. -/
theorem bounded_polling_terminates_witness :
    (∀ k, allErrOracle k = FetchOutcome.err)
    ∧ ((waitForAnalysisCompletion allErrOracle "42" "t0").fetchCalls ≤ maxAttempts
      ∧ (waitForAnalysisCompletion allErrOracle "42" "t0").waits * 5000 ≤ 60000
      ∧ ((∀ k, allErrOracle k = FetchOutcome.err) →
          (waitForAnalysisCompletion allErrOracle "42" "t0").result
            = createFallbackResults "42" "t0")) :=
  ⟨fun _ => rfl, bounded_polling_terminates allErrOracle "42" "t0"⟩

/-- Claim C5 counterexample: on the very first attempt the service resolves
with a response whose status is `processing` (not ready), yet the poller
returns that response to its caller after a single fetch instead of
invoking `onProgress` with the reported status and waiting: the source
skips status checking (`if (results) return results`). -/
theorem poller_returns_processing_cex :
    (waitForAnalysisCompletion alwaysProcessing "42" "t0").result = processingResponse
    ∧ processingResponse.status = some .processing
    ∧ (waitForAnalysisCompletion alwaysProcessing "42" "t0").fetchCalls = 1 :=
  ⟨rfl, rfl, rfl⟩

/-- Claim C5 amended: on each attempt the poller first invokes
`onProgress` with the hard-coded status `'processing'` and the interpolated
percent, then fetches; it returns the first non-null response regardless of
the status that response reports (also invoking `onProgress('completed',
100)`), and only errors or null responses make it wait for another
attempt.  Stated for a first-attempt response: the whole trace is the two
callbacks, one fetch, no wait, and the response itself. -/
theorem poller_returns_first_response (oracle : Nat → FetchOutcome)
    (r : UploadResponse) (analysisId now : String) (h : oracle 0 = .ok r) :
    waitForAnalysisCompletion oracle analysisId now
      = ⟨[("processing", pollInterp 0), ("completed", 100)], 1, 0, r⟩
    ∧ pollInterp 0 = 0 := by
  constructor
  · show waitLoop oracle analysisId now 0 (11 + 1) = _
    simp only [waitLoop, h]
  · norm_num [pollInterp, maxAttempts]

/-- Witness for C5 (amended) at the concrete processing response. -/
theorem poller_returns_first_response_witness :
    alwaysProcessing 0 = .ok processingResponse
    ∧ (waitForAnalysisCompletion alwaysProcessing "42" "t0"
        = ⟨[("processing", pollInterp 0), ("completed", 100)], 1, 0, processingResponse⟩
      ∧ pollInterp 0 = 0) :=
  ⟨rfl, poller_returns_first_response alwaysProcessing processingResponse "42" "t0" rfl⟩

/-- Claim C7 (submit validation): a file is accepted — moving the UI to the
preview step — only if its size is at most 100 MiB and its MIME type is in
the allowed set; a type or size violation is rejected synchronously with
an error message, leaving the step at `upload`.  `handleFileUpload` makes
no network call (its embedding has no call channel at all), so an invalid
file is never submitted or retried. -/
theorem submit_validation (parse : String → Option JsonKind) (file : FileData) :
    ((handleFileUpload parse file).accepted = true →
        file.size ≤ maxFileSize ∧ file.mime ∈ supportedTypeKeys
        ∧ (handleFileUpload parse file).nextStep = .preview)
    ∧ ((file.mime ∉ supportedTypeKeys ∨ maxFileSize < file.size) →
        (handleFileUpload parse file).accepted = false
        ∧ ((handleFileUpload parse file).errorMsg).isSome = true
        ∧ (handleFileUpload parse file).nextStep = .upload) := by
  constructor
  · intro hacc
    by_cases hm : file.mime ∈ supportedTypeKeys
    · by_cases hs : maxFileSize < file.size
      · simp only [handleFileUpload] at hacc
        rw [if_neg (not_not_intro hm), if_pos hs] at hacc
        simp at hacc
      · refine ⟨Nat.le_of_not_lt hs, hm, ?_⟩
        simp only [handleFileUpload]
        rw [if_neg (not_not_intro hm), if_neg hs]
        by_cases hj : file.mime = "application/json"
        · rw [if_pos hj]
          cases hp : parse file.content with
          | none =>
            simp only [handleFileUpload] at hacc
            rw [if_neg (not_not_intro hm), if_neg hs, if_pos hj, hp] at hacc
            simp at hacc
          | some k =>
            cases k with
            | arr => rfl
            | obj => rfl
            | prim =>
              simp only [handleFileUpload] at hacc
              rw [if_neg (not_not_intro hm), if_neg hs, if_pos hj, hp] at hacc
              simp at hacc
        · rw [if_neg hj]
    · simp only [handleFileUpload] at hacc
      rw [if_pos hm] at hacc
      simp at hacc
  · intro hvio
    by_cases hm : file.mime ∈ supportedTypeKeys
    · have hs : maxFileSize < file.size := by
        rcases hvio with h | h
        · exact absurd hm h
        · exact h
      refine ⟨?_, ?_, ?_⟩ <;>
      · simp only [handleFileUpload]
        rw [if_neg (not_not_intro hm), if_pos hs] <;> simp
    · refine ⟨?_, ?_, ?_⟩ <;>
      · simp only [handleFileUpload]
        rw [if_pos hm] <;> simp

/-- Witness for C7: the oversized file is rejected with the step left at
`upload`. -/
theorem submit_validation_witness :
    ("text/csv" ∉ supportedTypeKeys ∨ maxFileSize < oversizedCsv.size)
    ∧ ((handleFileUpload (fun _ => none) oversizedCsv).accepted = false
      ∧ ((handleFileUpload (fun _ => none) oversizedCsv).errorMsg).isSome = true
      ∧ (handleFileUpload (fun _ => none) oversizedCsv).nextStep = .upload) :=
  ⟨Or.inr (by decide),
    (submit_validation (fun _ => none) oversizedCsv).2 (Or.inr (by decide))⟩

/-- Claim C2 counterexample: in a fresh run whose first poll attempt
already resolves, the observed `analysisProgress` values are
`0, pollInterp 0, 100, 85, 95, 100` with `pollInterp 0 = 0` — the
publish-stage milestone 85 follows the poller completion callback value
100, so the sequence observed within a single submission lifetime (no user
reset involved) is not non-decreasing. -/
theorem progress_not_monotone_cex :
    (startAnalysis (.ok "42") okPipelineEnv sampleCsvFile true "t0").progressSets
      = [0, pollInterp 0, 100, 85, 95, 100]
    ∧ pollInterp 0 = 0
    ∧ ¬ List.Chain' (· ≤ ·)
        (startAnalysis (.ok "42") okPipelineEnv sampleCsvFile true "t0").progressSets := by
  refine ⟨rfl, by norm_num [pollInterp, maxAttempts], ?_⟩
  have h : (startAnalysis (.ok "42") okPipelineEnv sampleCsvFile true "t0").progressSets
      = [0, pollInterp 0, 100, 85, 95, 100] := rfl
  rw [h]
  simp [List.chain'_cons]
  norm_num

/-- Claim C2 amended: within one fresh submission run the progress values
decompose as the initial 0, then the poller percentages — a non-decreasing
sequence — then one of the milestone suffixes `[]`, `[85]`, `[85, 95]` or
`[85, 95, 100]`, itself non-decreasing.  The only place a decrease can
occur is the junction where the poller's final callback value (100 on
completion, up to 90 on exhaustion) is followed by the publish milestone
85. -/
theorem progress_monotone_except_publish_drop (submit : SubmitOutcome)
    (env : PipelineEnv) (file : FileData) (isPublic : Bool) (now : String) :
    ∃ pollVals rest,
      (startAnalysis submit env file isPublic now).progressSets
          = 0 :: (pollVals ++ rest)
      ∧ List.Chain' (· ≤ ·) (0 :: pollVals)
      ∧ List.Chain' (· ≤ ·) rest
      ∧ (rest = [] ∨ rest = [85] ∨ rest = [85, 95] ∨ rest = [85, 95, 100]) := by
  cases submit with
  | err m =>
    exact ⟨[], [], rfl, List.chain'_singleton 0, List.chain'_nil, Or.inl rfl⟩
  | ok analysisId =>
    obtain ⟨rest, hrest, hcases⟩ := monitoring_progress_eq env file isPublic analysisId now
    refine ⟨(waitForAnalysisCompletion env.pollOracle analysisId now).progressEvents.map (·.2),
      rest, ?_, ?_, ?_, Or.inr hcases⟩
    · show 0 :: (continueAnalysisMonitoring env file isPublic analysisId now).progressSets = _
      rw [hrest]
    · rw [List.chain'_cons']
      refine ⟨?_, waitLoop_chain env.pollOracle analysisId now maxAttempts 0⟩
      intro y hy
      rw [show waitForAnalysisCompletion env.pollOracle analysisId now
          = waitLoop env.pollOracle analysisId now 0 (11 + 1) from rfl,
        List.head?_map, waitLoop_events_head] at hy
      simp at hy
      rw [← hy]
      exact pollInterp_nonneg 0
    · rcases hcases with h | h | h <;> subst h
      · exact List.chain'_singleton _
      · norm_num [List.chain'_cons]
      · norm_num [List.chain'_cons]

/-- Claim C4 (exhaustion fallback): when every poll attempt fails, the
poller hands back the synthetic fallback result, whose `status` is
`completed` and whose `quality_score` is the documented default 85; with
the publish uploads, wallet and confirmation succeeding, the pipeline then
still runs to the confirmed terminal state instead of failing. -/
theorem exhaustion_fallback_reaches_confirmed (env : PipelineEnv)
    (file : FileData) (isPublic : Bool) (analysisId now : String)
    (hpoll : ∀ k, env.pollOracle k = FetchOutcome.err)
    (hjwt : ¬ env.jwt = "") (fileCid metaCid : String)
    (hfile : env.ipfs.fileUpload = .ok fileCid)
    (hmeta : env.ipfs.metadataUpload = .ok metaCid)
    (hw : env.walletConnected = true) (hc : env.txConfirmed = true) :
    (waitForAnalysisCompletion env.pollOracle analysisId now).result
        = createFallbackResults analysisId now
    ∧ ((createFallbackResults analysisId now).results.map (·.metrics.quality_score))
        = some 85
    ∧ (createFallbackResults analysisId now).status = some .completed
    ∧ (continueAnalysisMonitoring env file isPublic analysisId now).outcome
        = RunOutcome.confirmedDone := by
  have hres := waitLoop_all_err env.pollOracle analysisId now hpoll maxAttempts 0
  refine ⟨hres, rfl, rfl, ?_⟩
  have hipfs : (uploadToIPFS env.jwt env.ipfs file
      (convertToFrontendFormat
        (waitForAnalysisCompletion env.pollOracle analysisId now).result now)
      now).outcome = .returned metaCid := by
    unfold uploadToIPFS
    rw [if_neg hjwt, hfile, hmeta]
  simp [continueAnalysisMonitoring, hipfs, hw, hc]

/-- Witness for C4 in the all-throwing environment with succeeding publish
and register stages. -/
theorem exhaustion_fallback_reaches_confirmed_witness :
    (∀ k, allErrPipelineEnv.pollOracle k = FetchOutcome.err)
    ∧ ¬ allErrPipelineEnv.jwt = ""
    ∧ allErrPipelineEnv.ipfs.fileUpload = .ok "QmFileCid"
    ∧ allErrPipelineEnv.ipfs.metadataUpload = .ok "QmMetaCid"
    ∧ ((waitForAnalysisCompletion allErrPipelineEnv.pollOracle "42" "t0").result
          = createFallbackResults "42" "t0"
      ∧ ((createFallbackResults "42" "t0").results.map (·.metrics.quality_score))
          = some 85
      ∧ (createFallbackResults "42" "t0").status = some .completed
      ∧ (continueAnalysisMonitoring allErrPipelineEnv sampleCsvFile true "42" "t0").outcome
          = RunOutcome.confirmedDone) :=
  ⟨fun _ => rfl, by decide, rfl, rfl,
    exhaustion_fallback_reaches_confirmed allErrPipelineEnv sampleCsvFile true "42" "t0"
      (fun _ => rfl) (by decide) "QmFileCid" "QmMetaCid" rfl rfl rfl rfl⟩

/-- Claim C6 counterexample: a session restored in the `processing` step
with persisted id 42 whose status query finds the analysis completed does
not proceed to the publish and register stages: the recovery performs no
content-store upload and no ledger registration — it navigates straight to
the results page, storing a handoff record with a `restored-` placeholder
instead of a real IPFS hash. -/
theorem recovery_completed_skips_publish_cex :
    (restoreSession completedRecoveryEnv (some processingSaved) false "t0" "1700").pinataCalls
        = []
    ∧ (restoreSession completedRecoveryEnv (some processingSaved) false "t0" "1700").contractCalls
        = []
    ∧ (restoreSession completedRecoveryEnv (some processingSaved) false "t0" "1700").navigatedTo
        = some "/results"
    ∧ (restoreSession completedRecoveryEnv (some processingSaved) false "t0" "1700").storedIpfsHash
        = some "restored-1700"
    ∧ (restoreSession completedRecoveryEnv (some processingSaved) false "t0" "1700").apiCalls
        = [.getAnalysisResults "42", .getAnalysisResults "42"] :=
  ⟨rfl, rfl, rfl, rfl, rfl⟩

/-- Claim C6 amended: if the snapshot is in the processing step with an id
and the status query finds the analysis completed, recovery fetches the
full results by that id (two `getAnalysisResults` calls in total) and
navigates directly to the results page with a placeholder
`restored-` IPFS hash in the handoff record, clearing the snapshot —
skipping the publish and register stages entirely, and never re-submitting
the file. -/
theorem recovery_completed_navigates_to_results (env : RecoveryEnv)
    (s : SavedState) (analysisId now nowMs : String)
    (r r2 : UploadResponse) (res : AnalysisResults)
    (hstep : s.currentStep = .processing)
    (hid : s.currentAnalysisId = some analysisId)
    (hstat : env.statusFetch = .ok r)
    (hres : r.results = some res)
    (hfull : env.resultsFetch = .ok r2) :
    (restoreSession env (some s) false now nowMs).apiCalls
        = [.getAnalysisResults analysisId, .getAnalysisResults analysisId]
    ∧ (restoreSession env (some s) false now nowMs).pinataCalls = []
    ∧ (restoreSession env (some s) false now nowMs).contractCalls = []
    ∧ (restoreSession env (some s) false now nowMs).navigatedTo = some "/results"
    ∧ (restoreSession env (some s) false now nowMs).storedIpfsHash
        = some ("restored-" ++ nowMs)
    ∧ (restoreSession env (some s) false now nowMs).clearedState = true := by
  simp [restoreSession, hstep, hid, getAnalysisStatus, hstat, hres,
    restoreCompletedBranch, hfull]

/-- Witness for C6 (amended) at the concrete snapshot and environment. -/
theorem recovery_completed_navigates_to_results_witness :
    processingSaved.currentStep = .processing
    ∧ processingSaved.currentAnalysisId = some "42"
    ∧ completedRecoveryEnv.statusFetch = .ok completedResponse
    ∧ completedResponse.results.isSome = true
    ∧ ((restoreSession completedRecoveryEnv (some processingSaved) false "t0" "1700").apiCalls
          = [.getAnalysisResults "42", .getAnalysisResults "42"]
      ∧ (restoreSession completedRecoveryEnv (some processingSaved) false "t0" "1700").pinataCalls = []
      ∧ (restoreSession completedRecoveryEnv (some processingSaved) false "t0" "1700").contractCalls = []
      ∧ (restoreSession completedRecoveryEnv (some processingSaved) false "t0" "1700").navigatedTo
          = some "/results"
      ∧ (restoreSession completedRecoveryEnv (some processingSaved) false "t0" "1700").storedIpfsHash
          = some ("restored-" ++ "1700")
      ∧ (restoreSession completedRecoveryEnv (some processingSaved) false "t0" "1700").clearedState
          = true) :=
  ⟨rfl, rfl, rfl, rfl,
    recovery_completed_navigates_to_results completedRecoveryEnv processingSaved
      "42" "t0" "1700" completedResponse completedResponse
      ((createFallbackResults "42" "t0").results.getD
        ⟨⟨0, 0, 0, 0, 0, ⟨0, 0, 0, 0, []⟩, ⟨0, ⟨0, "", ""⟩, ⟨0, "", ""⟩⟩⟩, []⟩)
      rfl rfl rfl rfl rfl⟩

/-- Claim C8 counterexample: while still analyzing (no response yet), the
11th retry delivers `onProgress('processing', 90)` — the interpolation is
`min(90, attempts/12*100)`, which exceeds the claimed ceiling of 80. -/
theorem analyzing_progress_above_80_cex :
    (waitForAnalysisCompletion allErrOracle "42" "t0").progressEvents[11]?
        = some ("processing", pollInterp 11)
    ∧ pollInterp 11 = 90
    ∧ ¬ ((90 : ℚ) ≤ 80) :=
  ⟨rfl, by norm_num [pollInterp, maxAttempts, min_def], by norm_num⟩

/-- Claim C8 amended: the milestones are `Submitted = 0` (set at the start
of the run), an `Analyzing` interpolation `min(90, attempts/12·100)` — so
values climb from 0 towards a cap of 90, not 80 — plus the poller
completion callback at 100, then `Publishing = 85`, `Registering = 95` and
`Confirmed = 100`. -/
theorem progress_milestones (env : PipelineEnv) (file : FileData)
    (isPublic : Bool) (analysisId now : String)
    (hjwt : ¬ env.jwt = "") (fileCid metaCid : String)
    (hfile : env.ipfs.fileUpload = .ok fileCid)
    (hmeta : env.ipfs.metadataUpload = .ok metaCid)
    (hw : env.walletConnected = true) (hc : env.txConfirmed = true) :
    (startAnalysis (.ok analysisId) env file isPublic now).progressSets
        = 0 :: ((waitForAnalysisCompletion env.pollOracle analysisId now).progressEvents.map (·.2)
            ++ [85, 95, 100])
    ∧ (∀ e ∈ (waitForAnalysisCompletion env.pollOracle analysisId now).progressEvents,
        (e.1 = "processing" ∧ e.2 ≤ 90 ∧ ∃ k, k < maxAttempts ∧ e.2 = pollInterp k)
          ∨ e = ("completed", (100 : ℚ))) := by
  constructor
  · have hipfs : (uploadToIPFS env.jwt env.ipfs file
        (convertToFrontendFormat
          (waitForAnalysisCompletion env.pollOracle analysisId now).result now)
        now).outcome = .returned metaCid := by
      unfold uploadToIPFS
      rw [if_neg hjwt, hfile, hmeta]
    show 0 :: (continueAnalysisMonitoring env file isPublic analysisId now).progressSets = _
    simp [continueAnalysisMonitoring, hipfs, hw, hc]
  · intro e he
    rcases waitLoop_events_mem env.pollOracle analysisId now maxAttempts 0 e he with
      ⟨h1, k, _, hk2, h3⟩ | h1
    · exact Or.inl ⟨h1, h3 ▸ pollInterp_le_90 k, k, by omega, h3⟩
    · exact Or.inr h1

/-- Witness for C8 (amended) in a successful concrete run. -/
theorem progress_milestones_witness :
    ¬ okPipelineEnv.jwt = ""
    ∧ okPipelineEnv.ipfs.fileUpload = .ok "QmFileCid"
    ∧ okPipelineEnv.ipfs.metadataUpload = .ok "QmMetaCid"
    ∧ ((startAnalysis (.ok "42") okPipelineEnv sampleCsvFile true "t0").progressSets
        = 0 :: ((waitForAnalysisCompletion okPipelineEnv.pollOracle "42" "t0").progressEvents.map (·.2)
            ++ [85, 95, 100])
      ∧ (∀ e ∈ (waitForAnalysisCompletion okPipelineEnv.pollOracle "42" "t0").progressEvents,
          (e.1 = "processing" ∧ e.2 ≤ 90 ∧ ∃ k, k < maxAttempts ∧ e.2 = pollInterp k)
            ∨ e = ("completed", (100 : ℚ)))) :=
  ⟨by decide, rfl, rfl,
    progress_milestones okPipelineEnv sampleCsvFile true "42" "t0"
      (by decide) "QmFileCid" "QmMetaCid" rfl rfl rfl rfl⟩

/-- Claim C9 (publisher two-upload atomicity): whenever `uploadToIPFS`
returns a hash, it made exactly two Pinata uploads — first the raw file
bytes, then the metadata document embedding the first upload's hash — and
the returned hash is the metadata upload's; a missing JWT makes it throw
before any upload, and a failure of either upload makes the whole call
throw, so no hash is ever surfaced on a partial run. -/
theorem publisher_two_uploads (jwt : String) (oracle : IpfsOracle)
    (file : FileData) (analysisResults : FrontendAnalysisResult) (now : String) :
    (∀ h, (uploadToIPFS jwt oracle file analysisResults now).outcome = .returned h →
        oracle.metadataUpload = .ok h
        ∧ ∃ oh, oracle.fileUpload = .ok oh
          ∧ (uploadToIPFS jwt oracle file analysisResults now).calls
              = [.fileUpload file.content file.name,
                 .metadataUpload (buildIpfsMetadata file analysisResults oh now)]
          ∧ (buildIpfsMetadata file analysisResults oh now).originalFile.ipfsHash = oh)
    ∧ (jwt = "" →
        (uploadToIPFS jwt oracle file analysisResults now).calls = []
        ∧ ∃ m, (uploadToIPFS jwt oracle file analysisResults now).outcome = .thrown m)
    ∧ (∀ st, ¬ jwt = "" → oracle.fileUpload = .httpErr st →
        (∃ m, (uploadToIPFS jwt oracle file analysisResults now).outcome = .thrown m)
        ∧ (uploadToIPFS jwt oracle file analysisResults now).calls
            = [.fileUpload file.content file.name])
    ∧ (∀ oh st, ¬ jwt = "" → oracle.fileUpload = .ok oh →
        oracle.metadataUpload = .httpErr st →
        ∃ m, (uploadToIPFS jwt oracle file analysisResults now).outcome = .thrown m) := by
  by_cases hj : jwt = ""
  · simp [uploadToIPFS, hj]
  · cases hfo : oracle.fileUpload with
    | httpErr st => simp [uploadToIPFS, hj, hfo]
    | ok oh =>
      cases hmo : oracle.metadataUpload with
      | httpErr st => simp [uploadToIPFS, hj, hfo, hmo]
      | ok ah => simp [uploadToIPFS, hj, hfo, hmo, buildIpfsMetadata]

/-- Witness for C9 on a successful concrete publish. -/
theorem publisher_two_uploads_witness :
    (uploadToIPFS "jwt-secret" okIpfsOracle sampleCsvFile
        (convertToFrontendFormat processingResponse "t0") "t0").outcome
      = .returned "QmMetaCid"
    ∧ (okIpfsOracle.metadataUpload = .ok "QmMetaCid"
      ∧ ∃ oh, okIpfsOracle.fileUpload = .ok oh
        ∧ (uploadToIPFS "jwt-secret" okIpfsOracle sampleCsvFile
            (convertToFrontendFormat processingResponse "t0") "t0").calls
            = [.fileUpload sampleCsvFile.content sampleCsvFile.name,
               .metadataUpload (buildIpfsMetadata sampleCsvFile
                 (convertToFrontendFormat processingResponse "t0") oh "t0")]
        ∧ (buildIpfsMetadata sampleCsvFile
            (convertToFrontendFormat processingResponse "t0") oh "t0").originalFile.ipfsHash
            = oh) :=
  ⟨rfl,
    (publisher_two_uploads "jwt-secret" okIpfsOracle sampleCsvFile
      (convertToFrontendFormat processingResponse "t0") "t0").1 "QmMetaCid" rfl⟩

/-- Claim C10 counterexample: at a concrete snapshot restored
mid-analysis (persisted name `poll.csv`), the resumed run's publish does
not upload the rebuilt mock file's empty bytes as the original file: its
single Pinata POST is the stringified-null form field — the mount-render
closure still has `uploadedFile = null` — and the run ends in the
monitoring catch (step back to `preview`), never reaching the metadata
upload or the contract call. -/
theorem resumed_publish_not_empty_file_cex :
    (restoreSession processingRecoveryEnv (some processingSaved)
        false "t0" "1700").pinataCalls = [PinataCall.nullFileField]
    ∧ (restoreSession processingRecoveryEnv (some processingSaved)
        false "t0" "1700").pinataCalls ≠ [PinataCall.fileUpload "" "poll.csv"]
    ∧ (restoreSession processingRecoveryEnv (some processingSaved)
        false "t0" "1700").contractCalls = []
    ∧ (restoreSession processingRecoveryEnv (some processingSaved)
        false "t0" "1700").finalStep = some Step.preview :=
  ⟨rfl, by decide, rfl, rfl⟩

/-- Claim C10 amended: the restore routine rebuilds the file as
`new File([''], name, \x7b type \x7d)` — persisted name and MIME type,
empty content, size 0 — and places it into React state; but the
automatically resumed monitoring run executes the mount render's closure,
in which `uploadedFile` is still `null`, so its publish POSTs the
stringified null as the `file` field (no file bytes at all, neither the
original's nor the mock's), throws at `file.name` before the metadata
upload, and lands in the monitoring catch with no contract call.  Only a
publish from a later render's closure over the rebuilt mock file (the
retry button) uploads that file's empty bytes as the supposed original
file. -/
theorem resumed_session_stale_closure_publish (env : RecoveryEnv)
    (s : SavedState) (analysisId n now nowMs : String) (r : UploadResponse)
    (res : FrontendAnalysisResult)
    (hstep : s.currentStep = .processing)
    (hid : s.currentAnalysisId = some analysisId)
    (hname : s.fileName = some n) (hn : ¬ n = "")
    (hstat : env.statusFetch = .ok r)
    (hres : r.results = none)
    (hjwt : ¬ env.pipeline.jwt = "") :
    (mockFileOf n s.fileType).content = ""
    ∧ (mockFileOf n s.fileType).size = 0
    ∧ (mockFileOf n s.fileType).name = n
    ∧ (restoreSession env (some s) false now nowMs).restoredFile
        = some (mockFileOf n s.fileType)
    ∧ (restoreSession env (some s) false now nowMs).pinataCalls
        = [PinataCall.nullFileField]
    ∧ (restoreSession env (some s) false now nowMs).contractCalls = []
    ∧ (restoreSession env (some s) false now nowMs).finalStep = some Step.preview
    ∧ (uploadToIPFS env.pipeline.jwt env.pipeline.ipfs
        (mockFileOf n s.fileType) res now).calls.head?
        = some (PinataCall.fileUpload "" n) := by
  refine ⟨rfl, rfl, rfl, ?_, ?_, ?_, ?_, ?_⟩
  · simp [restoreSession, hstep, hid, getAnalysisStatus, hstat, hres,
      restoreProcessingBranch, hname, hn]
  · simp [restoreSession, hstep, hid, getAnalysisStatus, hstat, hres,
      restoreProcessingBranch, monitoringNullFile_eq,
      uploadToIPFSNullFile_calls env.pipeline.jwt env.pipeline.ipfs hjwt]
  · simp [restoreSession, hstep, hid, getAnalysisStatus, hstat, hres,
      restoreProcessingBranch, monitoringNullFile_eq]
  · simp [restoreSession, hstep, hid, getAnalysisStatus, hstat, hres,
      restoreProcessingBranch, monitoringNullFile_eq]
  · cases hf : env.pipeline.ipfs.fileUpload with
    | ok oh =>
      cases hm : env.pipeline.ipfs.metadataUpload with
      | ok ah => simp [uploadToIPFS, hjwt, hf, hm, mockFileOf]
      | httpErr st => simp [uploadToIPFS, hjwt, hf, hm, mockFileOf]
    | httpErr st => simp [uploadToIPFS, hjwt, hf, mockFileOf]

/-- Witness for C10 (amended) at the concrete snapshot and a
still-processing status response. -/
theorem resumed_session_stale_closure_publish_witness :
    processingSaved.currentStep = .processing
    ∧ processingSaved.currentAnalysisId = some "42"
    ∧ processingSaved.fileName = some "poll.csv"
    ∧ processingRecoveryEnv.statusFetch = .ok processingResponse
    ∧ processingResponse.results = none
    ∧ ((mockFileOf "poll.csv" processingSaved.fileType).content = ""
      ∧ (mockFileOf "poll.csv" processingSaved.fileType).size = 0
      ∧ (mockFileOf "poll.csv" processingSaved.fileType).name = "poll.csv"
      ∧ (restoreSession processingRecoveryEnv (some processingSaved)
            false "t0" "1700").restoredFile
          = some (mockFileOf "poll.csv" processingSaved.fileType)
      ∧ (restoreSession processingRecoveryEnv (some processingSaved)
            false "t0" "1700").pinataCalls = [PinataCall.nullFileField]
      ∧ (restoreSession processingRecoveryEnv (some processingSaved)
            false "t0" "1700").contractCalls = []
      ∧ (restoreSession processingRecoveryEnv (some processingSaved)
            false "t0" "1700").finalStep = some Step.preview
      ∧ (uploadToIPFS processingRecoveryEnv.pipeline.jwt
            processingRecoveryEnv.pipeline.ipfs
            (mockFileOf "poll.csv" processingSaved.fileType)
            (convertToFrontendFormat processingResponse "t0") "t0").calls.head?
          = some (PinataCall.fileUpload "" "poll.csv")) :=
  ⟨rfl, rfl, rfl, rfl, rfl,
    resumed_session_stale_closure_publish processingRecoveryEnv processingSaved
      "42" "poll.csv" "t0" "1700" processingResponse
      (convertToFrontendFormat processingResponse "t0")
      rfl rfl rfl (by decide) rfl rfl (by decide)⟩

end FileScope
